import Mathlib

/-!
Shallow embedding of `judge/views/organization.py`: the organization list,
detail and member views, the join/leave membership-change views, and the
creation/edit views, together with the profile and organization records they
read and write.  Django-framework collaborators (slug lookup, template
rendering, the cache, URL reversal, `login_required`) are modelled as explicit
data: the database is a `List Organization`, the requesting user a `Profile`,
the cache a list of string keys, and every view returns a `Response` value.
-/

/-- An `Organization` record: unique slug `key`, display `name`, free-text
`about`, and the registrant profile id (`judge.models.Organization`). -/
structure Organization where
  id : Nat
  key : String
  name : String
  about : String
  registrant : Option Nat
deriving Repr, DecidableEq

/-- A `Profile` record: the optional organization foreign key
(`organization_id`), the join timestamp, reputation `points`, and the
underlying user's active flag (used by the member roster filter). -/
structure Profile where
  id : Nat
  organization_id : Option Nat
  organization_join_time : Option Nat
  points : Int
  is_active : Bool
deriving Repr, DecidableEq

/-- What a view hands back to the framework: a redirect, a
`generic_message` page, a rendered template, the `login_required` redirect,
or an uncaught exception surfacing as a server error. -/
inductive Response where
  | redirect (url : String)
  | message (title : String) (body : String)
  | render (template : String) (title : String)
  | loginRedirect
  | serverError (err : String)
deriving Repr, DecidableEq

/-- The `judge.utils.views.generic_message` helper: renders a titled
human-readable message page. -/
def generic_message (title body : String) : Response :=
  Response.message title body

/-- Django's `reverse('organization_home', args=(key,))`: the URL of an
organization's home page. -/
def reverse_organization_home (key : String) : String :=
  "/organization/" ++ key ++ "/"

/-- An organization's `get_absolute_url` (its model lives outside this file's
source; only the fact that it is the created object's URL matters here). -/
def organization_get_absolute_url (o : Organization) : String :=
  reverse_organization_home o.key

/-- Django's `make_template_fragment_key(fragment, (varyOn,))`: an injective
encoding of the fragment name and the vary-on value into a cache key. -/
def make_template_fragment_key (fragment : String) (varyOn : Nat) : String :=
  "template.fragments." ++ fragment ++ "." ++ toString varyOn

/-- The cache's `delete`: removes a key from the cache. -/
def cacheDelete (c : List String) (k : String) : List String :=
  c.filter (fun x => x ≠ k)

/-- Slug lookup behind `SingleObjectMixin.get_object` with
`slug_field = 'key'`: the organization whose `key` matches, if any
(`none` models the `Http404` the framework raises). -/
def findOrg (orgs : List Organization) (key : String) : Option Organization :=
  orgs.find? (fun o => o.key == key)

/-- The `organization_not_found` helper (lines 21-27): a friendly
"No such organization" page, mentioning the key when one was given. -/
def organization_not_found (key : Option String) : Response :=
  match key with
  | some k =>
      generic_message "No such organization"
        ("Could not find an organization with the key \"" ++ k ++ "\".")
  | none => generic_message "No such organization" "Could not find such organization."

/-- Outcome of a membership-change handler: an optional early response, the
profile as the handler leaves it, the cache, and whether `profile.save()`
ran. -/
structure HandleResult where
  response : Option Response
  profile : Profile
  cache : List String
  saved : Bool
deriving Repr, DecidableEq

/-- Outcome of a whole request: the response plus the final profile, cache
and save flag. -/
structure GetResult where
  response : Response
  profile : Profile
  cache : List String
  saved : Bool
deriving Repr, DecidableEq

/-- `JoinOrganization.handle` (lines 83-89): refuse when the profile already
has an organization; otherwise set the organization and join time, save, and
delete the cached member-count fragment. -/
def JoinOrganization.handle (now : Nat) (org : Organization) (profile : Profile)
    (cache : List String) : HandleResult :=
  if profile.organization_id.isSome then
    { response := some (generic_message "Joining organization" "You are already in an organization."),
      profile := profile, cache := cache, saved := false }
  else
    { response := none,
      profile := { profile with organization_id := some org.id,
                                organization_join_time := some now },
      cache := cacheDelete cache (make_template_fragment_key "org_member_count" org.id),
      saved := true }

/-- `LeaveOrganization.handle` (lines 93-99): refuse when the profile's
organization is not the one being left; otherwise clear the organization and
join time, save, and delete the cached member-count fragment. -/
def LeaveOrganization.handle (org : Organization) (profile : Profile)
    (cache : List String) : HandleResult :=
  if some org.id ≠ profile.organization_id then
    { response := some (generic_message "Leaving organization"
        ("You are not in \"" ++ org.key ++ "\".")),
      profile := profile, cache := cache, saved := false }
  else
    { response := none,
      profile := { profile with organization_id := none, organization_join_time := none },
      cache := cacheDelete cache (make_template_fragment_key "org_member_count" org.id),
      saved := true }

/-- `OrganizationMembershipChange.get` (lines 68-76): look the organization
up (mapping `Http404` to the not-found page), run the join/leave handler,
and redirect to the organization's home page when the handler returned
nothing. -/
def OrganizationMembershipChange.get
    (handle : Organization → Profile → List String → HandleResult)
    (orgs : List Organization) (key : String) (profile : Profile)
    (cache : List String) : GetResult :=
  match findOrg orgs key with
  | none => ⟨organization_not_found (some key), profile, cache, false⟩
  | some org =>
      let hr := handle org profile cache
      match hr.response with
      | some r => ⟨r, hr.profile, hr.cache, hr.saved⟩
      | none => ⟨Response.redirect (reverse_organization_home org.key),
                 hr.profile, hr.cache, hr.saved⟩

/-- `judge.utils.views.LoginRequiredMixin`: an unauthenticated request is
redirected to the login page before the view body runs. -/
def LoginRequiredMixin.dispatch (authenticated : Bool) (profile : Profile)
    (cache : List String) (inner : GetResult) : GetResult :=
  if authenticated then inner else ⟨Response.loginRedirect, profile, cache, false⟩


/-- The data a valid `NewOrganization` form carries (`fields = ['name',
'key', 'about']`). -/
structure NewOrganizationForm where
  name : String
  key : String
  about : String
deriving Repr, DecidableEq

/-- Django's `CreateView` behaviour once `NewOrganization.dispatch` lets the
request through: `none` renders the creation form, a valid form creates the
record with the requester as registrant (`form_valid`, lines 107-109) and
redirects to it. -/
def CreateView.dispatch (profile : Profile) (orgs : List Organization)
    (form : Option NewOrganizationForm) (freshId : Nat) : Response × List Organization :=
  match form with
  | none => (Response.render "new_organization.jade" "New Organization", orgs)
  | some f =>
      let org : Organization :=
        { id := freshId, key := f.key, name := f.name, about := f.about,
          registrant := some profile.id }
      (Response.redirect (organization_get_absolute_url org), orgs ++ [org])

/-- `NewOrganization.dispatch` (lines 111-119) for a request whose user has
a profile (an authenticated user): under 50 points is refused first, then an
existing organization membership, and only then does `CreateView` run. -/
def NewOrganization.dispatch (profile : Profile) (orgs : List Organization)
    (form : Option NewOrganizationForm) (freshId : Nat) : Response × List Organization :=
  if profile.points < 50 then
    (generic_message "Can't add organization" "You need 50 points to add an organization.", orgs)
  else if profile.organization_id.isSome then
    (generic_message "Can't add organization" "You are already in an organization.", orgs)
  else
    CreateView.dispatch profile orgs form freshId

/-- The exceptions `EditOrganization.get_object` can raise. -/
inductive EditException where
  | http404
  | permissionDenied
deriving Repr, DecidableEq

/-- `EditOrganization.get_object` (lines 126-129): fetch the organization by
slug (`Http404` when absent), raise `PermissionDenied` when the requester's
profile is not in it — and then fall off the end of the function, so the
successful case returns `None` (the source has no `return object`). -/
def EditOrganization.get_object (orgs : List Organization) (key : String)
    (profile : Profile) : Except EditException (Option Organization) :=
  match findOrg orgs key with
  | none => Except.error EditException.http404
  | some obj =>
      if some obj.id ≠ profile.organization_id then
        Except.error EditException.permissionDenied
      else
        Except.ok none

/-- Django's `UpdateView` POST path on a valid form: with an instance it
saves the form's `name`/`about` into that record; with `None` as instance the
model form constructs and inserts a fresh record instead. -/
def UpdateView.form_valid (orgs : List Organization) (inst : Option Organization)
    (name about : String) (freshId : Nat) : List Organization × Response :=
  match inst with
  | some o =>
      let o2 := { o with name := name, about := about }
      (orgs.map (fun x => if x.id == o.id then o2 else x),
       Response.redirect (organization_get_absolute_url o2))
  | none =>
      let o2 : Organization :=
        { id := freshId, key := "", name := name, about := about, registrant := none }
      (orgs ++ [o2], Response.redirect (organization_get_absolute_url o2))

/-- The edit POST flow below the dispatch chain, reached only by a correctly
passed request: `EditOrganization.dispatch` (lines 131-136) maps
`PermissionDenied` to the "You are not in this organization." page, the mixin
maps `Http404` to the not-found page, and otherwise the `UpdateView`
machinery runs on whatever `get_object` produced. -/
def EditOrganization.post (orgs : List Organization) (key : String)
    (profile : Profile) (name about : String) (freshId : Nat) :
    List Organization × Response :=
  match EditOrganization.get_object orgs key profile with
  | Except.error EditException.http404 => (orgs, organization_not_found (some key))
  | Except.error EditException.permissionDenied =>
      (orgs, generic_message "Can't edit organization" "You are not in this organization.")
  | Except.ok inst => UpdateView.form_valid orgs inst name about freshId

/-- What `OrganizationMixin.dispatch` passes to `super().dispatch` as the
positional request argument: line 45 writes `dispatch(self, request, ...)`,
so the view object itself stands where the request belongs. -/
inductive RequestArg where
  | request
  | viewObject
deriving Repr, DecidableEq

/-- What the framework dispatch can produce: a response, an `Http404`, or an
`AttributeError` escaping to the framework's error page. -/
inductive FrameworkOutcome where
  | ok (r : Response)
  | http404
  | attributeError (msg : String)
deriving Repr, DecidableEq

/-- Django's `View.dispatch`: it reads `request.method` to pick the handler.
Given a real request it runs the handler; given the view object (which has
no `method` attribute) it raises `AttributeError` before the handler runs. -/
def View.dispatch (arg : RequestArg) (handler : FrameworkOutcome) : FrameworkOutcome :=
  match arg with
  | RequestArg.request => handler
  | RequestArg.viewObject => FrameworkOutcome.attributeError "View object has no attribute method"

/-- `OrganizationMixin.dispatch` (lines 43-47): call `super().dispatch` with
`self` as the positional request argument, catching only `Http404` (mapped
to the not-found page); any other exception surfaces as a server error. -/
def OrganizationMixin.dispatch (key : Option String) (handler : FrameworkOutcome) : Response :=
  match View.dispatch RequestArg.viewObject handler with
  | FrameworkOutcome.ok r => r
  | FrameworkOutcome.http404 => organization_not_found key
  | FrameworkOutcome.attributeError m => Response.serverError m

/-- Django's `DetailView.get`: look the object up by slug (`Http404` when
absent) and render the template with the view's title. -/
def DetailView.get (orgs : List Organization) (key : String)
    (template : String) (title : Organization → String) : FrameworkOutcome :=
  match findOrg orgs key with
  | none => FrameworkOutcome.http404
  | some o => FrameworkOutcome.ok (Response.render template (title o))

/-- The organization detail endpoint (`OrganizationHome`, lines 50-54) as
dispatched through `OrganizationMixin.dispatch`. -/
def OrganizationHome.view (orgs : List Organization) (key : String) : Response :=
  OrganizationMixin.dispatch (some key)
    (DetailView.get orgs key "organization.jade" (fun o => o.name))

/-- The member-list endpoint (`OrganizationUsers`, lines 57-64) as dispatched
through `OrganizationMixin.dispatch`. -/
def OrganizationUsers.view (orgs : List Organization) (key : String) : Response :=
  OrganizationMixin.dispatch (some key)
    (DetailView.get orgs key "users.jade" (fun o => o.name ++ " Members"))

/-- `OrganizationMixin.dispatch` (lines 43-47) for the state-threading
endpoints that inherit it (join, leave, edit): line 45 calls
`super().dispatch(self, request, ...)`, the view object standing where the
request belongs, so `View.dispatch` raises `AttributeError` before the
inherited `get`/`post` machinery runs; the `except Http404` does not catch
it and the request ends in the result `onError` builds — a server error with
the view's state untouched. `inner` is what a correctly passed request would
run. -/
def OrganizationMixin.dispatchState {σ : Type} (arg : RequestArg) (inner : σ)
    (onError : String → σ) : σ :=
  match arg with
  | RequestArg.request => inner
  | RequestArg.viewObject => onError "View object has no attribute method"

/-- The join endpoint: `LoginRequiredMixin`, then the inherited
`OrganizationMixin.dispatch` with `self` in the request position, and only
past it `OrganizationMembershipChange.get` with `JoinOrganization.handle`. -/
def JoinOrganization.view (authenticated : Bool) (now : Nat)
    (orgs : List Organization) (key : String) (profile : Profile)
    (cache : List String) : GetResult :=
  LoginRequiredMixin.dispatch authenticated profile cache
    (OrganizationMixin.dispatchState RequestArg.viewObject
      (OrganizationMembershipChange.get (JoinOrganization.handle now) orgs key profile cache)
      (fun m => ⟨Response.serverError m, profile, cache, false⟩))

/-- The leave endpoint: `LoginRequiredMixin`, then the inherited
`OrganizationMixin.dispatch` with `self` in the request position, and only
past it `OrganizationMembershipChange.get` with `LeaveOrganization.handle`. -/
def LeaveOrganization.view (authenticated : Bool)
    (orgs : List Organization) (key : String) (profile : Profile)
    (cache : List String) : GetResult :=
  LoginRequiredMixin.dispatch authenticated profile cache
    (OrganizationMixin.dispatchState RequestArg.viewObject
      (OrganizationMembershipChange.get LeaveOrganization.handle orgs key profile cache)
      (fun m => ⟨Response.serverError m, profile, cache, false⟩))

/-- The edit endpoint: `EditOrganization.dispatch` (lines 131-136) catches
only `PermissionDenied` around the inherited chain — `LoginRequiredMixin`,
then `OrganizationMixin.dispatch` with `self` in the request position — so
the `AttributeError` raised there escapes both `except` clauses as a server
error and `EditOrganization.post` is never reached. -/
def EditOrganization.view (authenticated : Bool) (orgs : List Organization)
    (key : String) (profile : Profile) (name about : String) (freshId : Nat) :
    List Organization × Response :=
  if authenticated then
    OrganizationMixin.dispatchState RequestArg.viewObject
      (EditOrganization.post orgs key profile name about freshId)
      (fun m => (orgs, Response.serverError m))
  else (orgs, Response.loginRedirect)

/-- The `members` reverse relation: the profiles whose organization is this
one. -/
def Organization.members (org : Organization) (profiles : List Profile) : List Profile :=
  profiles.filter (fun p => p.organization_id == some org.id)

/-- The ordering `order_by('-points')` sorts by: descending points. -/
def byPointsDesc (a b : Profile) : Prop :=
  b.points ≤ a.points

instance : DecidableRel byPointsDesc :=
  fun a b => inferInstanceAs (Decidable (b.points ≤ a.points))

instance : IsTotal Profile byPointsDesc :=
  ⟨fun a b => le_total b.points a.points⟩

instance : IsTrans Profile byPointsDesc :=
  ⟨fun _ _ _ hab hbc => le_trans hbc hab⟩

/-- Modelled from the spec: the ranker utility (`judge.utils.ranker`, not
among this repository's files) attaches tie-aware dense rank numbers to a
sequence ordered by points — the first item is ranked 1, an item with the
same points as its predecessor repeats the rank, and a new points value
advances the rank by one. -/
def rankerAux (rank : Nat) (last : Option Int) : List Profile → List (Nat × Profile)
  | [] => []
  | p :: ps =>
      if last == some p.points then
        (rank, p) :: rankerAux rank last ps
      else
        (rank + 1, p) :: rankerAux (rank + 1) (some p.points) ps

/-- Modelled from the spec: the `ranker` entry point, starting before rank 1
with no previous score. -/
def ranker (l : List Profile) : List (Nat × Profile) :=
  rankerAux 0 none l

/-- `OrganizationUsers.get_context_data`'s `users` entry (line 63):
`ranker(members.filter(points__gt=0, user__is_active=True).order_by('-points'))`. -/
def OrganizationUsers.users (org : Organization) (profiles : List Profile) :
    List (Nat × Profile) :=
  ranker (List.insertionSort byPointsDesc
    ((Organization.members org profiles).filter
      (fun p => decide (0 < p.points) && p.is_active)))

/-- Checks that a ranked tail continues a dense ranking whose previous entry
had rank `r` and points `s`: equal points repeat the rank, a new points value
advances it by one. -/
def denseFrom (r : Nat) (s : Int) : List (Nat × Profile) → Bool
  | [] => true
  | (r2, p) :: rest =>
      (if p.points == s then r2 == r else r2 == r + 1) && denseFrom r2 p.points rest

/-- A tie-aware dense ranking: the first entry has rank 1 and every later
entry repeats its predecessor's rank exactly when the points tie, advancing
by one otherwise. -/
def isDenseRanking : List (Nat × Profile) → Bool
  | [] => true
  | (r, p) :: rest => r == 1 && denseFrom 1 p.points rest

/-- Sample organization used by concrete witnesses. -/
def org1 : Organization :=
  { id := 1, key := "dmoj", name := "DMOJ", about := "about", registrant := none }

/-- Sample profile with no organization. -/
def freeProfile : Profile :=
  { id := 7, organization_id := none, organization_join_time := none,
    points := 10, is_active := true }

/-- Sample profile that is a member of `org1`. -/
def memberProfile : Profile :=
  { id := 8, organization_id := some 1, organization_join_time := some 3,
    points := 10, is_active := true }

/-- C1 fails on the code: the join endpoint inherits
`OrganizationMixin.dispatch`, whose line 45 passes `self` as the request, so
an authenticated join request by an organization-free profile for an
existing organization dies with `AttributeError` before the handler runs —
nothing is saved, the profile still has no organization, the cache is
untouched and no redirect is issued. -/
theorem join_request_server_error :
    JoinOrganization.view true 5 [org1] "dmoj" freeProfile [] =
      GetResult.mk (Response.serverError "View object has no attribute method")
        freeProfile [] false
    ∧ (JoinOrganization.view true 5 [org1] "dmoj" freeProfile []).profile.organization_id ≠
        some org1.id :=
  ⟨rfl, by decide⟩

/-- C2 fails on the code: the leave endpoint inherits the same broken
`OrganizationMixin.dispatch`, so an authenticated leave request by a member
of the target organization dies with `AttributeError` before the handler
runs — the profile keeps its organization and join time, nothing is saved,
the cache is untouched and no redirect is issued. -/
theorem leave_request_server_error :
    LeaveOrganization.view true [org1] "dmoj" memberProfile [] =
      GetResult.mk (Response.serverError "View object has no attribute method")
        memberProfile [] false
    ∧ (LeaveOrganization.view true [org1] "dmoj" memberProfile []).profile.organization_id ≠
        none :=
  ⟨rfl, by decide⟩

/-- C3 fails on the code: when a membership-change precondition fails (a
member joining again, or a profile leaving an organization it is not in) the
state is indeed left unchanged, but the promised message is never returned —
the inherited `OrganizationMixin.dispatch` raises `AttributeError` before
`get` or the handler runs, and the request ends in a server error instead of
the message page. -/
theorem membership_precondition_failure_server_error :
    JoinOrganization.view true 5 [org1] "dmoj" memberProfile [] =
      GetResult.mk (Response.serverError "View object has no attribute method")
        memberProfile [] false
    ∧ LeaveOrganization.view true [org1] "dmoj" freeProfile [] =
      GetResult.mk (Response.serverError "View object has no attribute method")
        freeProfile [] false :=
  ⟨rfl, rfl⟩

/-- C4: the membership operations preserve single-membership — the join
handler saves exactly when the profile has no organization (and then the
profile ends in that one organization), the leave handler saves exactly when
the profile is in the organization being left (and then the profile ends in
none), and organization creation changes the organization table only for a
profile with no organization and at least 50 points. -/
theorem membership_invariant (now : Nat) (org : Organization)
    (profile : Profile) (cache : List String) (orgs : List Organization)
    (form : Option NewOrganizationForm) (freshId : Nat) :
    ((JoinOrganization.handle now org profile cache).saved = true ↔
      profile.organization_id = none)
    ∧ ((JoinOrganization.handle now org profile cache).saved = true →
      (JoinOrganization.handle now org profile cache).profile.organization_id = some org.id)
    ∧ ((LeaveOrganization.handle org profile cache).saved = true ↔
      profile.organization_id = some org.id)
    ∧ ((LeaveOrganization.handle org profile cache).saved = true →
      (LeaveOrganization.handle org profile cache).profile.organization_id = none)
    ∧ ((NewOrganization.dispatch profile orgs form freshId).2 ≠ orgs →
      profile.organization_id = none ∧ 50 ≤ profile.points) := by
  refine ⟨?_, ?_, ?_, ?_, ?_⟩
  · cases h : profile.organization_id <;>
      simp [JoinOrganization.handle, h]
  · cases h : profile.organization_id <;>
      simp [JoinOrganization.handle, h]
  · by_cases h : some org.id = profile.organization_id <;>
      simp [LeaveOrganization.handle, h] <;> exact fun hx => absurd hx.symm h
  · by_cases h : some org.id = profile.organization_id <;>
      simp [LeaveOrganization.handle, h]
  · intro hchanged
    by_cases hp : profile.points < 50
    · exact absurd (by simp [NewOrganization.dispatch, hp]) hchanged
    · cases h : profile.organization_id with
      | some v =>
          exact absurd (by simp [NewOrganization.dispatch, hp, h]) hchanged
      | none => exact ⟨rfl, le_of_not_lt hp⟩

/-- C6: an authenticated profile with fewer than 50 points is refused
organization creation with the points message and no record is created; one
with enough points but an existing organization is refused with the
membership message and no record is created. -/
theorem new_organization_gating (profile : Profile) (orgs : List Organization)
    (form : Option NewOrganizationForm) (freshId : Nat) :
    (profile.points < 50 →
      NewOrganization.dispatch profile orgs form freshId =
        (Response.message "Can't add organization"
          "You need 50 points to add an organization.", orgs))
    ∧ (¬ profile.points < 50 → profile.organization_id.isSome = true →
      NewOrganization.dispatch profile orgs form freshId =
        (Response.message "Can't add organization"
          "You are already in an organization.", orgs)) := by
  constructor
  · intro hp
    simp [NewOrganization.dispatch, hp, generic_message]
  · intro hp hmem
    simp [NewOrganization.dispatch, hp, hmem, generic_message]

/-- C10: when a profile has both fewer than 50 points and an existing
organization, the creation request is refused with the insufficient-points
message — the points check comes first. -/
theorem new_organization_points_check_first (profile : Profile)
    (orgs : List Organization) (form : Option NewOrganizationForm) (freshId : Nat)
    (hp : profile.points < 50) (hmem : profile.organization_id.isSome = true) :
    NewOrganization.dispatch profile orgs form freshId =
      (Response.message "Can't add organization"
        "You need 50 points to add an organization.", orgs) := by
  simp [NewOrganization.dispatch, hp, generic_message]

/-- Sample profile that is both poor (under 50 points) and already a member
of `org1`. -/
def poorMemberProfile : Profile :=
  { id := 11, organization_id := some 1, organization_join_time := some 2,
    points := 10, is_active := true }

/-- Witness for C10 at a concrete state. -/
theorem new_organization_points_check_first_witness :
    NewOrganization.dispatch poorMemberProfile [org1] none 2 =
      (Response.message "Can't add organization"
        "You need 50 points to add an organization.", [org1]) :=
  new_organization_points_check_first poorMemberProfile [org1] none 2
    (by decide) rfl

/-- C5 fails on the code: `OrganizationMixin.dispatch` passes `self` as the
positional request argument of `super().dispatch`, so the framework raises
`AttributeError` before the slug lookup and a request for a missing key gets
a server error, not the "No such organization" page. -/
theorem organization_detail_missing_key_server_error :
    OrganizationHome.view [] "missing" =
      Response.serverError "View object has no attribute method"
    ∧ OrganizationUsers.view [] "missing" =
      Response.serverError "View object has no attribute method"
    ∧ OrganizationHome.view [] "missing" ≠ organization_not_found (some "missing") :=
  ⟨rfl, rfl, by decide⟩

/-- Sample organization to be edited. -/
def oldOrg : Organization :=
  { id := 1, key := "dmoj", name := "Old name", about := "Old about",
    registrant := none }

/-- Sample profile that is a member of `oldOrg` and attempts the edit. -/
def editorProfile : Profile :=
  { id := 9, organization_id := some 1, organization_join_time := some 2,
    points := 60, is_active := true }

/-- C7 fails on the code: the edit endpoint inherits the broken
`OrganizationMixin.dispatch`, so a member's edit request dies with
`AttributeError` before `get_object` runs — the organization table is left
as it was, the target keeps its old name and about, and no success response
is issued; the claimed mutation never happens. -/
theorem edit_by_member_request_server_error :
    EditOrganization.view true [oldOrg] "dmoj" editorProfile "New name" "New about" 2 =
      ([oldOrg], Response.serverError "View object has no attribute method")
    ∧ (EditOrganization.view true [oldOrg] "dmoj" editorProfile "New name" "New about" 2).1 ≠
        [{ oldOrg with name := "New name", about := "New about" }] :=
  ⟨rfl, by decide⟩

/-- Sample profile belonging to a different organization (id 2). -/
def outsiderProfile : Profile :=
  { id := 10, organization_id := some 2, organization_join_time := some 1,
    points := 70, is_active := true }

/-- C8 fails on the code: a non-member's edit request never sees the
"You are not in this organization." page — the inherited
`OrganizationMixin.dispatch` raises `AttributeError` before `get_object` can
raise `PermissionDenied`, so the request ends in a raw server error (the
organization table is, as the claim also says, never mutated). -/
theorem edit_by_non_member_request_server_error :
    EditOrganization.view true [oldOrg] "dmoj" outsiderProfile "New name" "New about" 2 =
      ([oldOrg], Response.serverError "View object has no attribute method")
    ∧ (EditOrganization.view true [oldOrg] "dmoj" outsiderProfile "New name" "New about" 2).2 ≠
        Response.message "Can't edit organization" "You are not in this organization." :=
  ⟨rfl, by decide⟩

/-- The ranker only decorates: stripping the ranks gives back the input. -/
theorem rankerAux_map_snd (l : List Profile) : ∀ (r : Nat) (last : Option Int),
    (rankerAux r last l).map Prod.snd = l := by
  induction l with
  | nil => intro r last; rfl
  | cons p ps ih =>
      intro r last
      cases h : (last == some p.points) <;> simp [rankerAux, h, ih]

/-- The ranker's output continues a dense ranking from its starting rank and
score. -/
theorem denseFrom_rankerAux (l : List Profile) : ∀ (r : Nat) (s : Int),
    denseFrom r s (rankerAux r (some s) l) = true := by
  induction l with
  | nil => intro r s; rfl
  | cons p ps ih =>
      intro r s
      by_cases h : p.points = s
      · subst h
        simp [rankerAux, denseFrom, ih]
      · have h1 : (some s == some p.points) = false := by
          simp [beq_eq_false_iff_ne, Ne.symm h]
        simp [rankerAux, h1, denseFrom, h, ih]

/-- The ranker's output is a tie-aware dense ranking. -/
theorem isDenseRanking_ranker (l : List Profile) :
    isDenseRanking (ranker l) = true := by
  cases l with
  | nil => rfl
  | cons p ps => simp [ranker, rankerAux, isDenseRanking, denseFrom_rankerAux]

/-- C9: the member-list view's `users` context holds exactly the
organization's members that are active with strictly positive points,
in descending order of points, with tie-aware dense rank numbers
attached. -/
theorem organization_users_context (org : Organization) (profiles : List Profile) :
    ((OrganizationUsers.users org profiles).map Prod.snd).Perm
      (profiles.filter
        (fun p => (decide (0 < p.points) && p.is_active)
          && (p.organization_id == some org.id)))
    ∧ List.Sorted byPointsDesc ((OrganizationUsers.users org profiles).map Prod.snd)
    ∧ isDenseRanking (OrganizationUsers.users org profiles) = true := by
  have hmap : (OrganizationUsers.users org profiles).map Prod.snd =
      List.insertionSort byPointsDesc
        ((Organization.members org profiles).filter
          (fun p => decide (0 < p.points) && p.is_active)) := by
    simp [OrganizationUsers.users, ranker, rankerAux_map_snd]
  have h2 : (Organization.members org profiles).filter
      (fun p => decide (0 < p.points) && p.is_active) =
      profiles.filter
        (fun p => (decide (0 < p.points) && p.is_active)
          && (p.organization_id == some org.id)) := by
    rw [Organization.members, List.filter_filter]
  refine ⟨?_, ?_, ?_⟩
  · rw [hmap, h2]
    exact List.perm_insertionSort byPointsDesc _
  · rw [hmap]
    exact List.sorted_insertionSort byPointsDesc _
  · simp [OrganizationUsers.users, isDenseRanking_ranker]
